import Mathlib

/-!
Verification of the statistical analysis engine of the taalim grade dashboard
(`src/app.py`, with the bracket logic duplicated in `src/app_v0.py`).

The embedding is shallow: a grade cell is `Option ℚ` (`none` models pandas
NaN / a missing value; the float arithmetic of the source is modelled by exact
rational arithmetic).  A table is a header `List String` (the dataframe
columns) together with rows `List (List Cell)` parallel to the header.
Every pandas reduction used by the engine (`dropna().mean()`, `std(ddof=1)`,
boolean-mask filters where a NaN comparison is `False`, `np.mean` propagating
NaN) is translated to an explicit function below, next to a comment citing the
source lines it embeds.
-/

namespace Taalim

/-- A grade cell: `none` is pandas NaN ("missing"), `some q` a numeric grade. -/
abbrev Cell := Option ℚ

/-- `Series.dropna()`: the non-missing values of a column, in order. -/
def dropNaN (xs : List Cell) : List ℚ :=
  xs.filterMap id

/-- `Series.dropna().mean()`: `none` models the NaN that pandas returns on an
empty series. -/
def seriesMean (xs : List Cell) : Option ℚ :=
  let v := dropNaN xs
  if v.isEmpty then none else some (v.sum / v.length)

/-- `np.mean(scores) if scores else 0` (app.py:1667-1668, 840-841). -/
def npMeanOr0 (xs : List ℚ) : ℚ :=
  if xs.isEmpty then 0 else xs.sum / xs.length

/-- NaN-propagating subtraction of two float results. -/
def optSub : Option ℚ → Option ℚ → Option ℚ
  | some a, some b => some (a - b)
  | _, _ => none

/-- `np.mean([a, b])` on two floats: NaN as soon as one operand is NaN. -/
def npMean2 : Option ℚ → Option ℚ → Option ℚ
  | some a, some b => some ((a + b) / 2)
  | _, _ => none

/-- A float comparison `x > 0`: `False` when `x` is NaN. -/
def optPos : Option ℚ → Bool
  | some a => decide (0 < a)
  | none => false

/- ## Column names (app.py:1195-1200, 1650-1651, 1981-1982) -/

def overallCol : String := "المعدل"
def arabicCol : String := "اللغة العربية"
def frenchCol : String := "اللغة الفرنسية"
def englishCol : String := "اللغة الإنجليزية"
def socialCol : String := "الاجتماعيات"
def mathCol : String := "الرياضيات"
def svtCol : String := "علوم الحياة والأرض"
def physCol : String := "الفيزياء والكيمياء"
def islamicCol : String := "التربية الإسلامية"
def peCol : String := "التربية البدنية"
def infoCol : String := "المعلوميات"
def artCol : String := "التربية التشكيلية"
def musicCol : String := "التربية الموسيقية"

/-- `subject_columns` (app.py:1195-1200). -/
def subject_columns : List String :=
  [ arabicCol, frenchCol, englishCol, socialCol, mathCol, svtCol, physCol,
    islamicCol, peCol, infoCol, artCol, musicCol, overallCol ]

/-- `science_subjects` (app.py:1650, 830). -/
def science_subjects : List String :=
  [ mathCol, svtCol, physCol ]

/-- `humanities_subjects` (app.py:1651, 831). -/
def humanities_subjects : List String :=
  [ arabicCol, frenchCol, englishCol, socialCol, islamicCol ]

/- ## Table access -/

/-- `row[col]` with the guards `col in df.columns and pd.notna(row.get(col))`:
`none` when the column is absent from the header or the cell is NaN. -/
def cellAt (cols : List String) (r : List Cell) (s : String) : Cell :=
  match cols.indexOf? s with
  | none => none
  | some i => r.getD i none

/-- `df[col]` as a list of cells; `[]` when the column is absent (the source
always guards column access with `if col in df.columns`). -/
def colValues (cols : List String) (rows : List (List Cell)) (s : String) :
    List Cell :=
  match cols.indexOf? s with
  | none => []
  | some i => rows.map (fun r => r.getD i none)

/-- All-or-nothing view of a row: `some` exactly when no cell is missing. -/
def allSome : List Cell → Option (List ℚ)
  | [] => some []
  | none :: _ => none
  | some a :: l => (allSome l).map (fun v => a :: v)

/-- `df[sel]`: restrict each row to the selected columns, in their order. -/
def subTable (cols : List String) (rows : List (List Cell)) (sel : List String) :
    List (List Cell) :=
  rows.map (fun r => sel.map (fun s => cellAt cols r s))

/-- `DataFrame.dropna()`: keep exactly the complete-case rows. -/
def dropIncomplete (rows : List (List Cell)) : List (List ℚ) :=
  rows.filterMap allSome

/- ## Normalizer (app.py:1202-1204, 1219-1220) -/

/-- `str.replace(',', '.')` (app.py:1204): with a one-character pattern the
substring replacement is exactly a character-by-character map. -/
def replaceComma (s : String) : String :=
  String.mk (s.toList.map (fun c => if c = ',' then '.' else c))

/-- Value of a digit string, most significant first. -/
def digitsVal (l : List Char) : ℕ :=
  l.foldl (fun n c => 10 * n + (c.toNat - 48)) 0

def allDigits (l : List Char) : Bool :=
  l.all Char.isDigit

/-- Parse an unsigned decimal literal (`"12"`, `"12.5"`, `".5"`, `"5."`),
exactly the grade shapes `float(...)` accepts; anything else is `none`. -/
def parseUnsigned : List Char → Option ℚ
  | l =>
    match l.splitOn '.' with
    | [ip] =>
        if ip.isEmpty || !allDigits ip then none else some (digitsVal ip)
    | [ip, fp] =>
        if (ip.isEmpty && fp.isEmpty) || !allDigits ip || !allDigits fp then
          none
        else
          some ((digitsVal ip : ℚ) + (digitsVal fp : ℚ) / 10 ^ fp.length)
    | _ => none

/-- `float(...)` after the comma has been replaced: optional sign then an
unsigned decimal literal; `none` models `errors='coerce'` turning any
unparsable cell into NaN (no exception is ever raised: the function is total). -/
def parseFloatQ (s : String) : Option ℚ :=
  match s.toList with
  | '-' :: rest => (parseUnsigned rest).map (fun q => -q)
  | '+' :: rest => parseUnsigned rest
  | l => parseUnsigned l

/-- One cell of
`pd.to_numeric(df[col].astype(str).str.replace(',', '.'), errors='coerce')`
(app.py:1202-1204). -/
def normalizeCell (s : String) : Option ℚ :=
  parseFloatQ (replaceComma s)

/-- A raw row for the name filter: the student-name field and the grade cells. -/
abbrev NamedRow := Option String × List Cell

/-- `df_filtered.dropna(subset=['اسم التلميذ'])` (app.py:1219-1220): rows whose
name field is missing are removed entirely. -/
def dropMissingName (rows : List NamedRow) : List NamedRow :=
  rows.filter (fun r => r.1.isSome)

/- ## Grade brackets (app.py:1397-1421, app_v0.py:90-114) -/

inductive Bracket where
  | belowAverage
  | average
  | goodExcellent
deriving DecidableEq, Fintype

/-- `get_bracket` (app.py:1397-1405): `None` on NaN, else the threshold chain
`< 10`, `< 12`, else. -/
def get_bracket : Cell → Option Bracket
  | none => none
  | some g => if g < 10 then some .belowAverage
              else if g < 12 then some .average
              else some .goodExcellent

/-- `len(df_filtered[df_filtered['المعدل'] < 10])` (app.py:1419): a NaN
average compares `False` and is not counted. -/
def countBelowAverage (avgs : List Cell) : ℕ :=
  avgs.countP (fun c => match c with | some g => decide (g < 10) | none => false)

/-- `len(average)` for the mask `(avg >= 10) & (avg < 12)` (app.py:1420). -/
def countAverage (avgs : List Cell) : ℕ :=
  avgs.countP (fun c =>
    match c with | some g => decide (10 ≤ g) && decide (g < 12) | none => false)

/-- `len(good)` for the mask `avg >= 12` (app.py:1421). -/
def countGoodExcellent (avgs : List Cell) : ℕ :=
  avgs.countP (fun c => match c with | some g => decide (12 ≤ g) | none => false)

/- ## Risk tiers (app.py:2484-2498) -/

/-- `df_analysis[(avg >= 9) & (avg < 10)]` on the rows left by
`dropna(subset=['المعدل'])` (app.py:2491, 2494). -/
def borderline_low (avgs : List Cell) : List ℚ :=
  (dropNaN avgs).filter (fun g => decide (9 ≤ g) && decide (g < 10))

/-- `df_analysis[(avg >= 10) & (avg < 11)]` (app.py:2495). -/
def borderline_high (avgs : List Cell) : List ℚ :=
  (dropNaN avgs).filter (fun g => decide (10 ≤ g) && decide (g < 11))

/-- `df_analysis[avg < 9]` (app.py:2496). -/
def at_risk (avgs : List Cell) : List ℚ :=
  (dropNaN avgs).filter (fun g => decide (g < 9))

/-- `Series.std()` with pandas' default `ddof=1` returns NaN for a series of
length 0 or 1; otherwise the sample variance `Σ (x - mean)² / (n - 1)`.
This is the variance under the square root of app.py:2487. -/
def sampleVar (xs : List ℚ) : Option ℚ :=
  if xs.length ≤ 1 then none
  else
    let m := xs.sum / xs.length
    some ((xs.map (fun x => (x - m) ^ 2)).sum / (xs.length - 1 : ℕ))

/-- `df_filtered['المعدل'].dropna().std()` (app.py:2487), as a real number
because of the square root; `none` is NaN. -/
noncomputable def sampleStd (xs : List ℚ) : Option ℝ :=
  (sampleVar xs).map (fun v => Real.sqrt (v : ℝ))

/-- `avg_mean + k * avg_std` (app.py:2497-2498 with `k = 1.5` and `k = 2`):
NaN (`none`) as soon as the mean or the std is NaN. -/
noncomputable def riskThreshold (avgs : List Cell) (k : ℝ) : Option ℝ :=
  match seriesMean avgs, sampleStd (dropNaN avgs) with
  | some m, some s => some ((m : ℝ) + k * s)
  | _, _ => none

/-- `df_analysis[avg >= t]` for a possibly-NaN threshold `t`: comparison with
NaN is elementwise `False`, so a NaN threshold selects nothing. -/
noncomputable def tierGE (avgs : List Cell) (t : Option ℝ) : List ℚ :=
  match t with
  | none => []
  | some t => (dropNaN avgs).filter (fun g => decide (t ≤ (g : ℝ)))

/-- `excellent` (app.py:2497): average at least `mean + 1.5 * std`. -/
noncomputable def excellent (avgs : List Cell) : List ℚ :=
  tierGE avgs (riskThreshold avgs (3 / 2))

/-- `outliers_top` (app.py:2498): average at least `mean + 2 * std`. -/
noncomputable def outliers_top (avgs : List Cell) : List ℚ :=
  tierGE avgs (riskThreshold avgs 2)

/- ## Orientation analysis (app.py:1654-1679, 1771-1779, 832-841) -/

/-- The flattening loop of app.py:1654-1665 / 832-839: for each subject of the
group present in the table, append the column's non-missing values. -/
def groupScores (group cols : List String) (rows : List (List Cell)) : List ℚ :=
  group.flatMap (fun s => dropNaN (colValues cols rows s))

/-- `science_avg = np.mean(science_scores) if science_scores else 0`
(app.py:1667, 840). -/
def science_avg (cols : List String) (rows : List (List Cell)) : ℚ :=
  npMeanOr0 (groupScores science_subjects cols rows)

/-- `humanities_avg` (app.py:1668, 841). -/
def humanities_avg (cols : List String) (rows : List (List Cell)) : ℚ :=
  npMeanOr0 (groupScores humanities_subjects cols rows)

/-- Modelled from the spec (§4.4): "flatten all non-missing grades across all
students for each group, then take the mean of the flattened list", read
student by student; `none` when no grade of the group is available.  Stated
independently of the column-major loop of the source so that the agreement of
the two is a theorem. -/
def specFlattenMean (group cols : List String) (rows : List (List Cell)) :
    Option ℚ :=
  let flat := rows.flatMap (fun r => group.filterMap (fun s => cellAt cols r s))
  if flat.isEmpty then none else some (flat.sum / flat.length)

/-- Modelled from the spec (§4.4), as the semantics the spec rules out:
the mean of the per-student group averages. -/
def avgOfStudentAvgs (group cols : List String) (rows : List (List Cell)) :
    Option ℚ :=
  let pas := rows.filterMap (fun r =>
    let v := group.filterMap (fun s => cellAt cols r s)
    if v.isEmpty then none else some (v.sum / v.length))
  if pas.isEmpty then none else some (pas.sum / pas.length)

/-- `np.mean(sci_vals) if sci_vals else np.nan` per student (app.py:1674-1679):
the comprehension keeps the grades of the group's subjects that are present
and not NaN. -/
def studentGroupAvg (group cols : List String) (r : List Cell) : Option ℚ :=
  let v := group.filterMap (fun s => cellAt cols r s)
  if v.isEmpty then none else some (v.sum / v.length)

/-- `df['الفرق'] = science_avg - humanities_avg` per student (app.py:1775):
NaN when either group average is NaN. -/
def tiltDiff (cols : List String) (r : List Cell) : Option ℚ :=
  optSub (studentGroupAvg science_subjects cols r)
    (studentGroupAvg humanities_subjects cols r)

/-- Mask `الفرق > 0.5` (app.py:1777); `False` on NaN. -/
def sciencePred (cols : List String) (r : List Cell) : Bool :=
  match tiltDiff cols r with
  | some d => decide (1 / 2 < d)
  | none => false

/-- Mask `الفرق < -0.5` (app.py:1778); `False` on NaN. -/
def humanitiesPred (cols : List String) (r : List Cell) : Bool :=
  match tiltDiff cols r with
  | some d => decide (d < -(1 / 2))
  | none => false

/-- Mask `(الفرق >= -0.5) & (الفرق <= 0.5)` (app.py:1779); `False` on NaN. -/
def balancedPred (cols : List String) (r : List Cell) : Bool :=
  match tiltDiff cols r with
  | some d => decide (-(1 / 2) ≤ d) && decide (d ≤ 1 / 2)
  | none => false

/-- `science_tilt` (app.py:1777). -/
def science_tilt (cols : List String) (rows : List (List Cell)) : ℕ :=
  rows.countP (sciencePred cols)

/-- `humanities_tilt` (app.py:1778). -/
def humanities_tilt (cols : List String) (rows : List (List Cell)) : ℕ :=
  rows.countP (humanitiesPred cols)

/-- `balanced` (app.py:1779). -/
def balanced_tilt (cols : List String) (rows : List (List Cell)) : ℕ :=
  rows.countP (balancedPred cols)

/- ## Language proficiency gap (app.py:1985-1991, 932-936) -/

/-- `df[col].dropna().mean() if col in df.columns else 0` (app.py:1985-1987):
the argument is the column when present (`some cells`) or `none` when the
column is absent from the table, in which case the source takes the literal 0.
The result is a float: `none` is NaN (an all-NaN present column). -/
def langColAvg : Option (List Cell) → Option ℚ
  | none => some 0
  | some xs => seriesMean xs

/-- `np.mean([french_avg, english_avg]) if french_avg > 0 or english_avg > 0
else 0` (app.py:1988, 935). -/
def foreignAvg (fa ea : Option ℚ) : Option ℚ :=
  if optPos fa || optPos ea then npMean2 fa ea else some 0

/-- `proficiency_gap = arabic_avg - foreign_avg` (app.py:1991, 936), from the
three language columns (each `none` when absent from the table). -/
def proficiencyGap (ar fr en : Option (List Cell)) : Option ℚ :=
  optSub (langColAvg ar) (foreignAvg (langColAvg fr) (langColAvg en))

/- ## Correlation analysis (app.py:2248-2303, 2355, 993-1000) -/

/-- `[col for col in subject_columns if col in df.columns and col != 'المعدل']`
(app.py:2248, 993). -/
def correlation_subjects (cols : List String) : List String :=
  subject_columns.filter (fun c => cols.contains c && c ≠ overallCol)

/-- `df_filtered[correlation_subjects].dropna()` (app.py:2249, 994). -/
def correlation_data (cols : List String) (rows : List (List Cell)) :
    List (List ℚ) :=
  dropIncomplete (subTable cols rows (correlation_subjects cols))

/-- The gate `len(correlation_data) > 5 and len(correlation_subjects) > 1`
(app.py:2251, 995); when it is `false` the source shows the "insufficient
data" warning (app.py:2472-2473) instead of a matrix. -/
def corrGate (cols : List String) (rows : List (List Cell)) : Bool :=
  decide (5 < (correlation_data cols rows).length) &&
    decide (1 < (correlation_subjects cols).length)

/-- Columns `i` and `j` of the complete-case sub-table as paired observations;
`corr_matrix.iloc[i, j]` is the Pearson correlation of this pairing. -/
def pairCol (i j : ℕ) (rows : List (List ℚ)) : List (ℚ × ℚ) :=
  rows.map (fun r => (r.getD i 0, r.getD j 0))

/-- Mean of the first components. -/
def meanFst (d : List (ℚ × ℚ)) : ℚ :=
  (d.map Prod.fst).sum / d.length

/-- Mean of the second components. -/
def meanSnd (d : List (ℚ × ℚ)) : ℚ :=
  (d.map Prod.snd).sum / d.length

/-- Centered sum of squares of the first coordinate. -/
def sxx (d : List (ℚ × ℚ)) : ℚ :=
  (d.map (fun p => (p.1 - meanFst d) ^ 2)).sum

/-- Centered sum of squares of the second coordinate. -/
def syy (d : List (ℚ × ℚ)) : ℚ :=
  (d.map (fun p => (p.2 - meanSnd d) ^ 2)).sum

/-- Centered cross sum. -/
def sxy (d : List (ℚ × ℚ)) : ℚ :=
  (d.map (fun p => (p.1 - meanFst d) * (p.2 - meanSnd d))).sum

/-- Pearson correlation as `DataFrame.corr()` computes it:
`Σ(x-x̄)(y-ȳ) / sqrt(Σ(x-x̄)² · Σ(y-ȳ)²)`, and NaN (`none`) when either
column has zero variance over the complete-case rows (0/0 in floats). -/
noncomputable def pearson (d : List (ℚ × ℚ)) : Option ℝ :=
  if sxx d * syy d = 0 then none
  else some ((sxy d : ℝ) / Real.sqrt ((sxx d : ℝ) * (syy d : ℝ)))

/-- `corr_matrix.iloc[i, j]` over the complete-case rows. -/
noncomputable def matrixEntry (rows : List (List ℚ)) (i j : ℕ) : Option ℝ :=
  pearson (pairCol i j rows)

/-- The ranked-pair enumeration `for i in range(n): for j in range(i+1, n)`
(app.py:2293-2294, 998-999): only the upper triangle is listed. -/
def upperPairs (n : ℕ) : List (ℕ × ℕ) :=
  (List.range n).flatMap (fun i =>
    (List.range' (i + 1) (n - (i + 1))).map (fun j => (i, j)))

/-- `corr_matrix[selected].drop(selected)` (app.py:2355): the per-subject view
keeps every subject index except the subject's own. -/
def subjectView (n k : ℕ) : List ℕ :=
  (List.range n).filter (fun j => j ≠ k)

/- ## Concrete cohorts used in closed statements -/

/-- A table with two subject columns. -/
def twoLangCols : List String :=
  [ arabicCol, frenchCol ]

/-- Five complete rows over `twoLangCols`. -/
def fiveCompleteRows : List (List Cell) :=
  [ [ some 10, some 11 ], [ some 9, some 8 ], [ some 12, some 14 ],
    [ some 7, some 13 ], [ some 15, some 10 ] ]

/-- Six complete rows over `twoLangCols` whose first column is constant. -/
def sixConstantRows : List (List Cell) :=
  [ [ some 5, some 1 ], [ some 5, some 2 ], [ some 5, some 3 ],
    [ some 5, some 4 ], [ some 5, some 5 ], [ some 5, some 6 ] ]

/-- Two students over the science columns with different missing-grade
patterns: flatten-then-mean gives 70/4 = 17.5, the mean of the per-student
averages gives (10 + 20)/2 = 15. -/
def twoPatternRows : List (List Cell) :=
  [ [ some 10, none, none ], [ some 20, some 20, some 20 ] ]

/-- Three perfectly correlated paired observations. -/
def diagonalPairs : List (ℚ × ℚ) :=
  [ (1, 1), (2, 2), (3, 3) ]

/-- A raw grade cell with a decimal comma. -/
def gradeComma : String := "12,5"

/-- An unparsable raw grade cell. -/
def gradeJunk : String := "abc"

end Taalim

namespace Taalim

/- ## Evaluation helpers -/

theorem dropNaN_nil : dropNaN [] = [] := rfl

theorem dropNaN_cons_none (xs : List Cell) : dropNaN (none :: xs) = dropNaN xs := rfl

theorem dropNaN_cons_some (q : ℚ) (xs : List Cell) :
    dropNaN (some q :: xs) = q :: dropNaN xs := rfl

/-- C4: in the risk-tier classification a student with overall average exactly
9.0 falls in borderline-low `[9, 10)` and not in at-risk `< 9`, and a student
with average exactly 10.0 falls in borderline-high `[10, 11)` and not in
borderline-low. -/
theorem risk_tier_boundaries (avgs : List Cell) :
    ((9 : ℚ) ∈ borderline_low avgs ↔ (9 : ℚ) ∈ dropNaN avgs)
    ∧ (9 : ℚ) ∉ at_risk avgs
    ∧ ((10 : ℚ) ∈ borderline_high avgs ↔ (10 : ℚ) ∈ dropNaN avgs)
    ∧ (10 : ℚ) ∉ borderline_low avgs := by
  refine ⟨?_, ?_, ?_, ?_⟩ <;>
    simp [borderline_low, borderline_high, at_risk, List.mem_filter,
      decide_eq_true_eq] <;>
    norm_num

/-- C3: `get_bracket` maps a NaN average to no bracket, assigns to every
numeric average exactly one of the three brackets at the documented
thresholds, and the three mask counts of app.py:1419-1421 add up to the
number of non-missing averages. -/
theorem bracket_partition (avgs : List Cell) :
    (∀ g : ℚ,
        (get_bracket (some g) = some Bracket.belowAverage ↔ g < 10)
      ∧ (get_bracket (some g) = some Bracket.average ↔ 10 ≤ g ∧ g < 12)
      ∧ (get_bracket (some g) = some Bracket.goodExcellent ↔ 12 ≤ g))
    ∧ get_bracket none = none
    ∧ countBelowAverage avgs + countAverage avgs + countGoodExcellent avgs
        = (dropNaN avgs).length := by
  refine ⟨fun g => ?_, rfl, ?_⟩
  · rcases lt_or_le g 10 with h1 | h1
    · have h2 : ¬ (10 : ℚ) ≤ g := not_le.mpr h1
      have h3 : ¬ (12 : ℚ) ≤ g := not_le.mpr (h1.trans (by norm_num))
      simp [get_bracket, h1, h2, h3]
    · rcases lt_or_le g 12 with h2 | h2
      · have h4 : ¬ g < 10 := not_lt.mpr h1
        have h5 : ¬ (12 : ℚ) ≤ g := not_le.mpr h2
        simp [get_bracket, h4, h5, h1, h2]
      · have h4 : ¬ g < 10 := not_lt.mpr ((by norm_num : (10:ℚ) ≤ 12).trans h2)
        have h5 : ¬ g < 12 := not_lt.mpr h2
        simp [get_bracket, h4, h5, h2]
  · induction avgs with
    | nil => rfl
    | cons c t ih =>
      rcases c with _ | g
      · simpa [countBelowAverage, countAverage, countGoodExcellent,
          List.countP_cons, dropNaN_cons_none] using ih
      · simp only [countBelowAverage, countAverage, countGoodExcellent,
          List.countP_cons, dropNaN_cons_some, List.length_cons] at ih ⊢
        rcases lt_or_le g 10 with h1 | h1
        · have h2 : ¬ (10 : ℚ) ≤ g := not_le.mpr h1
          have h3 : ¬ (12 : ℚ) ≤ g := not_le.mpr (h1.trans (by norm_num))
          simp [h1, h2, h3]
          omega
        · rcases lt_or_le g 12 with h2 | h2
          · have h4 : ¬ g < 10 := not_lt.mpr h1
            have h5 : ¬ (12 : ℚ) ≤ g := not_le.mpr h2
            simp [h1, h2, h4, h5]
            omega
          · have h4 : ¬ g < 10 := not_lt.mpr ((by norm_num : (10:ℚ) ≤ 12).trans h2)
            have h5 : ¬ g < 12 := not_lt.mpr h2
            simp [h2, h4, h5]
            omega

/-- C8: the normalizer replaces the comma by a period, parses the result as a
decimal number, turns anything unparsable into missing (`none`) — it is a
total function, so no input raises — and the name filter keeps exactly the
rows whose student-name field is present. -/
theorem normalizer_contract :
    (∀ s : String, normalizeCell s = parseFloatQ (replaceComma s))
    ∧ normalizeCell gradeComma = some (25 / 2)
    ∧ normalizeCell gradeJunk = none
    ∧ (∀ s : String, normalizeCell s = none ∨ ∃ q : ℚ, normalizeCell s = some q)
    ∧ (∀ rows : List NamedRow, ∀ r : NamedRow,
        r ∈ dropMissingName rows ↔ r ∈ rows ∧ r.1.isSome = true) := by
  refine ⟨fun s => rfl, ?_, by decide, fun s => ?_, fun rows r => ?_⟩
  · rw [show normalizeCell gradeComma = some ((12 : ℚ) + 5 / 10 ^ 1) from rfl]
    norm_num
  · cases normalizeCell s with
    | none => exact Or.inl rfl
    | some q => exact Or.inr ⟨q, rfl⟩
  · simp [dropMissingName, List.mem_filter]

/-- C1: at a cohort with exactly 5 complete rows over 2 subject columns the
dashboard and deck gate `len(correlation_data) > 5` is already false, so the
source reports "insufficient data" although its own warning text (app.py:2473)
and the spec ask for at least 5 complete rows; in general the matrix is
computed iff there are at least 6 complete rows and at least 2 subject
columns. -/
theorem correlation_gate_at_five_rows :
    (correlation_subjects twoLangCols).length = 2
    ∧ (correlation_data twoLangCols fiveCompleteRows).length = 5
    ∧ corrGate twoLangCols fiveCompleteRows = false
    ∧ (∀ cols : List String, ∀ rows : List (List Cell),
        corrGate cols rows = true ↔
          6 ≤ (correlation_data cols rows).length
            ∧ 2 ≤ (correlation_subjects cols).length) := by
  refine ⟨by decide, by decide, by decide, fun cols rows => ?_⟩
  simp only [corrGate, Bool.and_eq_true, decide_eq_true_eq]
  omega

/-- C2: the cohort language-gap computation of app.py:1985-1991 (and
932-936).  With Arabic cohort average 14 and English cohort average 12, a
French column absent from the table enters the foreign mean as the literal 0,
giving gap 8 instead of the 2 the spec's "treat a wholly-missing subject as
absent, never as zero" demands; a French column present but wholly NaN
poisons `np.mean` and makes the gap NaN instead of 2. -/
theorem proficiency_gap_missing_language :
    proficiencyGap (some [ some 14 ]) none (some [ some 12 ]) = some 8
    ∧ proficiencyGap (some [ some 14 ]) (some [ none ]) (some [ some 12 ]) = none := by
  have h14 : seriesMean [ some 14 ] = some 14 := by
    simp [seriesMean, dropNaN_cons_some, dropNaN_nil]
  have h12 : seriesMean [ some 12 ] = some 12 := by
    simp [seriesMean, dropNaN_cons_some, dropNaN_nil]
  have hnan : seriesMean [ (none : Cell) ] = none := by
    simp [seriesMean, dropNaN_cons_none, dropNaN_nil]
  constructor
  · show optSub (langColAvg (some [ some 14 ]))
      (foreignAvg (langColAvg none) (langColAvg (some [ some 12 ]))) = some 8
    rw [show langColAvg (some [ some 14 ]) = seriesMean [ some 14 ] from rfl,
      show langColAvg (some [ some 12 ]) = seriesMean [ some 12 ] from rfl,
      show langColAvg none = some 0 from rfl, h14, h12]
    rw [show foreignAvg (some 0) (some 12) = npMean2 (some 0) (some 12) by
      simp [foreignAvg, optPos]]
    show some (14 - (0 + 12) / 2) = some 8
    norm_num
  · show optSub (langColAvg (some [ some 14 ]))
      (foreignAvg (langColAvg (some [ (none : Cell) ]))
        (langColAvg (some [ some 12 ]))) = none
    rw [show langColAvg (some [ (none : Cell) ]) = seriesMean [ (none : Cell) ] from rfl,
      show langColAvg (some [ some 14 ]) = seriesMean [ some 14 ] from rfl,
      show langColAvg (some [ some 12 ]) = seriesMean [ some 12 ] from rfl,
      h14, h12, hnan]
    rw [show foreignAvg none (some 12) = npMean2 none (some 12) by
      simp [foreignAvg, optPos]]
    rfl

theorem riskThreshold_eq_none (avgs : List Cell)
    (h : sampleStd (dropNaN avgs) = none) (k : ℝ) :
    riskThreshold avgs k = none := by
  unfold riskThreshold
  rw [h]
  cases seriesMean avgs <;> rfl

/-- C5: over a cohort with at most one non-missing overall average, pandas'
`std(ddof=1)` is NaN, and the excellence and outlier tiers short-circuit to
the empty selection (a NaN threshold compares `False` against every row); no
branch of the embedded semantics is partial, so nothing raises. -/
theorem small_cohort_tiers_empty (avgs : List Cell)
    (h : (dropNaN avgs).length ≤ 1) :
    sampleStd (dropNaN avgs) = none
    ∧ excellent avgs = [] ∧ outliers_top avgs = [] := by
  have hv : sampleVar (dropNaN avgs) = none := by
    simp [sampleVar, h]
  have hs : sampleStd (dropNaN avgs) = none := by
    simp [sampleStd, hv]
  refine ⟨hs, ?_, ?_⟩ <;>
    simp [excellent, outliers_top, riskThreshold_eq_none avgs hs, tierGE]

/-- Witness for C5 at the one-student cohort `[12]`. -/
theorem small_cohort_tiers_empty_witness :
    (dropNaN [ some 12 ]).length ≤ 1
    ∧ (sampleStd (dropNaN [ some 12 ]) = none
       ∧ excellent [ some 12 ] = [] ∧ outliers_top [ some 12 ] = []) :=
  ⟨by decide, small_cohort_tiers_empty [ some 12 ] (by decide)⟩

/-- C10: the outlier-top tier (average at least `mean + 2σ`) is always a
subset of the excellent tier (average at least `mean + 1.5σ`): the standard
deviation is a square root, hence nonnegative, and both tiers are empty when
it is NaN. -/
theorem outliers_top_subset_excellent (avgs : List Cell) :
    outliers_top avgs ⊆ excellent avgs := by
  unfold outliers_top excellent
  cases hm : seriesMean avgs with
  | none =>
      unfold riskThreshold
      rw [hm]
      intro x hx
      simp [tierGE] at hx
  | some m =>
      cases hs : sampleStd (dropNaN avgs) with
      | none =>
          unfold riskThreshold
          rw [hm, hs]
          intro x hx
          simp [tierGE] at hx
      | some s =>
          have hs0 : 0 ≤ s := by
            rw [sampleStd] at hs
            rcases Option.map_eq_some'.mp hs with ⟨v, hv, hsq⟩
            rw [← hsq]
            exact Real.sqrt_nonneg _
          unfold riskThreshold
          rw [hm, hs]
          intro x hx
          simp only [tierGE, List.mem_filter, decide_eq_true_eq] at hx ⊢
          refine ⟨hx.1, le_trans ?_ hx.2⟩
          linarith

/-- C7: per row, the three tilt masks of app.py:1777-1779 read the same
NaN-propagating difference, so a student with no grades in either group
(difference NaN) is in no bucket, a student with a defined difference is in
exactly one bucket at the `±0.5` thresholds, and the three bucket counts add
up to the number of students with both group averages defined. -/
theorem tilt_partition (cols : List String) (rows : List (List Cell)) :
    science_tilt cols rows + humanities_tilt cols rows + balanced_tilt cols rows
      = rows.countP (fun r => (tiltDiff cols r).isSome)
    ∧ (∀ r : List Cell, tiltDiff cols r = none →
        sciencePred cols r = false ∧ humanitiesPred cols r = false
          ∧ balancedPred cols r = false)
    ∧ (∀ r : List Cell, ∀ d : ℚ, tiltDiff cols r = some d →
        (sciencePred cols r = true ↔ 1 / 2 < d)
      ∧ (humanitiesPred cols r = true ↔ d < -(1 / 2))
      ∧ (balancedPred cols r = true ↔ -(1 / 2) ≤ d ∧ d ≤ 1 / 2)) := by
  refine ⟨?_, fun r hr => ?_, fun r d hr => ?_⟩
  · unfold science_tilt humanities_tilt balanced_tilt
    induction rows with
    | nil => rfl
    | cons r t ih =>
      simp only [List.countP_cons, ← ih]
      cases hr : tiltDiff cols r with
      | none =>
          simp [sciencePred, humanitiesPred, balancedPred, hr]
      | some d =>
          simp only [sciencePred, humanitiesPred, balancedPred, hr,
            Option.isSome_some, Bool.and_eq_true, decide_eq_true_eq,
            eq_self_iff_true, if_true]
          rcases lt_or_le (1 / 2 : ℚ) d with h1 | h1
          · have h2 : ¬ d < -(1 / 2 : ℚ) :=
              not_lt.mpr (le_trans (by norm_num) h1.le)
            have h3 : ¬ (-(1 / 2 : ℚ) ≤ d ∧ d ≤ 1 / 2) := fun hc =>
              (not_le.mpr h1) hc.2
            rw [if_pos h1, if_neg h2, if_neg h3]
            omega
          · rcases lt_or_le d (-(1 / 2 : ℚ)) with h2 | h2
            · have h3 : ¬ (1 / 2 : ℚ) < d := not_lt.mpr h1
              have h4 : ¬ (-(1 / 2 : ℚ) ≤ d ∧ d ≤ 1 / 2) := fun hc =>
                (not_le.mpr h2) hc.1
              rw [if_neg h3, if_pos h2, if_neg h4]
              omega
            · have h3 : ¬ (1 / 2 : ℚ) < d := not_lt.mpr h1
              have h4 : ¬ d < -(1 / 2 : ℚ) := not_lt.mpr h2
              rw [if_neg h3, if_neg h4, if_pos (And.intro h2 h1)]
              omega
  · simp [sciencePred, humanitiesPred, balancedPred, hr]
  · simp [sciencePred, humanitiesPred, balancedPred, hr, decide_eq_true_eq]

/- ## Flatten-then-mean: column-major and row-major flattening agree -/

theorem sum_flatMap {α M : Type} [AddMonoid M] (f : α → List M) (l : List α) :
    (l.flatMap f).sum = (l.map (fun a => (f a).sum)).sum := by
  induction l with
  | nil => rfl
  | cons a t ih => simp [List.flatMap_cons, List.sum_append, ih]

theorem sum_filterMap_getD {α : Type} (v : α → Option ℚ) (l : List α) :
    (l.filterMap v).sum = (l.map (fun a => (v a).getD 0)).sum := by
  induction l with
  | nil => rfl
  | cons a t ih =>
    rw [List.filterMap_cons]
    cases hv : v a <;> simp [hv, ih]

theorem length_filterMap_toNat {α : Type} (v : α → Option ℚ) (l : List α) :
    (l.filterMap v).length = (l.map (fun a => (v a).isSome.toNat)).sum := by
  induction l with
  | nil => rfl
  | cons a t ih =>
    rw [List.filterMap_cons]
    cases hv : v a <;> simp [hv, ih]
    omega

theorem sum_map_add {β M : Type} [AddCommMonoid M] (m : List β) (f g : β → M) :
    (m.map (fun b => f b + g b)).sum = (m.map f).sum + (m.map g).sum := by
  induction m with
  | nil => simp
  | cons b t ih =>
    simp only [List.map_cons, List.sum_cons, ih]
    exact add_add_add_comm _ _ _ _

theorem sum_map_comm {α β M : Type} [AddCommMonoid M] (l : List α) (m : List β)
    (w : α → β → M) :
    (l.map (fun a => (m.map (w a)).sum)).sum
      = (m.map (fun b => (l.map (fun a => w a b)).sum)).sum := by
  induction l with
  | nil => simp [List.sum_eq_zero]
  | cons a t ih =>
    simp only [List.map_cons, List.sum_cons, ih]
    rw [← sum_map_add]

theorem filterMap_const_none {α β : Type} (l : List α) :
    l.filterMap (fun _ => (none : Option β)) = [] := by
  induction l with
  | nil => rfl
  | cons a t ih => simp [List.filterMap_cons, ih]

theorem dropNaN_colValues (cols : List String) (rows : List (List Cell))
    (s : String) :
    dropNaN (colValues cols rows s)
      = rows.filterMap (fun r => cellAt cols r s) := by
  unfold dropNaN colValues cellAt
  cases h : cols.indexOf? s with
  | none => exact (filterMap_const_none rows).symm
  | some i => simp [List.filterMap_map, Function.id_comp]

theorem flatten_sum_comm (group cols : List String) (rows : List (List Cell)) :
    (group.flatMap (fun s => rows.filterMap (fun r => cellAt cols r s))).sum
      = (rows.flatMap (fun r => group.filterMap (fun s => cellAt cols r s))).sum := by
  rw [sum_flatMap, sum_flatMap]
  simp only [sum_filterMap_getD]
  exact sum_map_comm group rows (fun s r => (cellAt cols r s).getD 0)

theorem flatten_length_comm (group cols : List String) (rows : List (List Cell)) :
    (group.flatMap (fun s => rows.filterMap (fun r => cellAt cols r s))).length
      = (rows.flatMap (fun r => group.filterMap (fun s => cellAt cols r s))).length := by
  rw [List.length_flatMap, List.length_flatMap]
  simp only [Function.comp_def, length_filterMap_toNat]
  exact sum_map_comm group rows (fun s r => (cellAt cols r s).isSome.toNat)

theorem isEmpty_false_of_ne_nil {α : Type} {l : List α} (h : l ≠ []) :
    l.isEmpty = false := by
  cases l with
  | nil => exact absurd rfl h
  | cons a t => rfl

theorem groupAvg_eq_specFlattenMean (group cols : List String)
    (rows : List (List Cell)) (h : groupScores group cols rows ≠ []) :
    some (npMeanOr0 (groupScores group cols rows))
      = specFlattenMean group cols rows := by
  have hgs : groupScores group cols rows
      = group.flatMap (fun s => rows.filterMap (fun r => cellAt cols r s)) := by
    simp only [groupScores, dropNaN_colValues]
  have hsum : (groupScores group cols rows).sum
      = (rows.flatMap (fun r => group.filterMap (fun s => cellAt cols r s))).sum := by
    rw [hgs]; exact flatten_sum_comm group cols rows
  have hlen : (groupScores group cols rows).length
      = (rows.flatMap (fun r => group.filterMap (fun s => cellAt cols r s))).length := by
    rw [hgs]; exact flatten_length_comm group cols rows
  have hflatne : rows.flatMap (fun r => group.filterMap (fun s => cellAt cols r s)) ≠ [] := by
    intro h0
    apply h
    apply List.length_eq_zero.mp
    rw [hlen, h0]
    rfl
  simp only [specFlattenMean, npMeanOr0, isEmpty_false_of_ne_nil h,
    isEmpty_false_of_ne_nil hflatne, Bool.false_eq_true, if_false, hsum, hlen]

/-- C6: the cohort science and humanities group averages are computed by
flattening all non-missing grades of the group across all students and taking
the mean of the flattened list; on a nonempty flattened list this agrees with
the spec's per-student reading of "flatten then mean", and it differs from the
mean of per-student group averages as soon as missing-grade patterns differ
(witnessed on `twoPatternRows`: 70/4 against 15). -/
theorem group_average_flatten_then_mean :
    (∀ cols : List String, ∀ rows : List (List Cell),
        groupScores science_subjects cols rows ≠ [] →
          some (science_avg cols rows)
            = specFlattenMean science_subjects cols rows)
    ∧ (∀ cols : List String, ∀ rows : List (List Cell),
        groupScores humanities_subjects cols rows ≠ [] →
          some (humanities_avg cols rows)
            = specFlattenMean humanities_subjects cols rows)
    ∧ some (science_avg science_subjects twoPatternRows)
        ≠ avgOfStudentAvgs science_subjects science_subjects twoPatternRows := by
  refine ⟨fun cols rows h => groupAvg_eq_specFlattenMean _ _ _ h,
    fun cols rows h => groupAvg_eq_specFlattenMean _ _ _ h, ?_⟩
  have hg : groupScores science_subjects science_subjects twoPatternRows
      = [ 10, 20, 20, 20 ] := by decide
  have hr1 : science_subjects.filterMap
      (fun s => cellAt science_subjects [ some 10, none, none ] s) = [ 10 ] := by
    decide
  have hr2 : science_subjects.filterMap
      (fun s => cellAt science_subjects [ some 20, some 20, some 20 ] s)
      = [ 20, 20, 20 ] := by decide
  have hs : science_avg science_subjects twoPatternRows = 70 / 4 := by
    rw [show science_avg science_subjects twoPatternRows
        = npMeanOr0 (groupScores science_subjects science_subjects twoPatternRows)
      from rfl, hg]
    norm_num [npMeanOr0]
  have ha : avgOfStudentAvgs science_subjects science_subjects twoPatternRows
      = some 15 := by
    simp only [avgOfStudentAvgs, twoPatternRows, List.filterMap_cons,
      List.filterMap_nil, hr1, hr2]
    norm_num
  rw [hs, ha]
  simp only [ne_eq, Option.some_inj]
  norm_num

/-- Witness for C6's agreement branch on a concrete nonempty cohort. -/
theorem group_average_flatten_then_mean_witness :
    groupScores science_subjects science_subjects twoPatternRows ≠ []
    ∧ some (science_avg science_subjects twoPatternRows)
        = specFlattenMean science_subjects science_subjects twoPatternRows :=
  ⟨by decide,
    group_average_flatten_then_mean.1 science_subjects twoPatternRows (by decide)⟩

/- ## Pearson correlation: symmetry, bounds, self-exclusion -/

theorem map_sum_eq_range_sum {α M : Type} [AddCommMonoid M] (f : α → M)
    (dflt : α) (l : List α) :
    (l.map f).sum = ∑ i ∈ Finset.range l.length, f (l.getD i dflt) := by
  induction l with
  | nil => simp
  | cons a t ih =>
    rw [List.map_cons, List.sum_cons, List.length_cons, Finset.sum_range_succ']
    simp only [List.getD_cons_succ, List.getD_cons_zero, ih]
    exact (add_comm _ _)

theorem sxx_nonneg (d : List (ℚ × ℚ)) : 0 ≤ sxx d := by
  apply List.sum_nonneg
  intro x hx
  rcases List.mem_map.mp hx with ⟨p, hp, rfl⟩
  positivity

theorem syy_nonneg (d : List (ℚ × ℚ)) : 0 ≤ syy d := by
  apply List.sum_nonneg
  intro x hx
  rcases List.mem_map.mp hx with ⟨p, hp, rfl⟩
  positivity

/-- Cauchy-Schwarz for the centered sums. -/
theorem sxy_sq_le (d : List (ℚ × ℚ)) : sxy d ^ 2 ≤ sxx d * syy d := by
  rw [sxy, sxx, syy, map_sum_eq_range_sum _ (0, 0), map_sum_eq_range_sum _ (0, 0),
    map_sum_eq_range_sum _ (0, 0)]
  exact Finset.sum_mul_sq_le_sq_mul_sq _ _ _

theorem pearson_bounds (d : List (ℚ × ℚ)) (r : ℝ) (h : pearson d = some r) :
    -1 ≤ r ∧ r ≤ 1 := by
  unfold pearson at h
  by_cases h0 : sxx d * syy d = 0
  · rw [if_pos h0] at h
    exact absurd h (by simp)
  · rw [if_neg h0] at h
    have hr : r = (sxy d : ℝ) / Real.sqrt ((sxx d : ℝ) * (syy d : ℝ)) := by
      exact (Option.some_inj.mp h).symm
    have hprod : (0 : ℚ) < sxx d * syy d :=
      lt_of_le_of_ne (mul_nonneg (sxx_nonneg d) (syy_nonneg d)) (Ne.symm h0)
    have hprodR : (0 : ℝ) < (sxx d : ℝ) * (syy d : ℝ) := by
      exact_mod_cast hprod
    have hsq : (0 : ℝ) < Real.sqrt ((sxx d : ℝ) * (syy d : ℝ)) :=
      Real.sqrt_pos.mpr hprodR
    have hcs : ((sxy d : ℝ)) ^ 2 ≤ (sxx d : ℝ) * (syy d : ℝ) := by
      exact_mod_cast sxy_sq_le d
    have habs : |(sxy d : ℝ)| ≤ Real.sqrt ((sxx d : ℝ) * (syy d : ℝ)) := by
      rw [← Real.sqrt_sq_eq_abs]
      exact Real.sqrt_le_sqrt hcs
    have hball : |r| ≤ 1 := by
      rw [hr, abs_div, abs_of_pos hsq]
      exact (div_le_one hsq).mpr habs
    exact abs_le.mp hball

theorem pearson_map_swap (d : List (ℚ × ℚ)) :
    pearson (d.map Prod.swap) = pearson d := by
  have hmf : meanFst (d.map Prod.swap) = meanSnd d := by
    simp only [meanFst, meanSnd, List.map_map, List.length_map]
    rfl
  have hms : meanSnd (d.map Prod.swap) = meanFst d := by
    simp only [meanFst, meanSnd, List.map_map, List.length_map]
    rfl
  have hxx : sxx (d.map Prod.swap) = syy d := by
    simp only [sxx, syy, List.map_map, hmf]
    rfl
  have hyy : syy (d.map Prod.swap) = sxx d := by
    simp only [sxx, syy, List.map_map, hms]
    rfl
  have hxy : sxy (d.map Prod.swap) = sxy d := by
    simp only [sxy, List.map_map, hmf, hms]
    apply congrArg List.sum
    apply List.map_congr_left
    intro p hp
    exact mul_comm _ _
  unfold pearson
  rw [hxx, hyy, hxy, mul_comm (syy d) (sxx d),
    mul_comm ((syy d : ℚ) : ℝ) ((sxx d : ℚ) : ℝ)]

theorem matrixEntry_symm (rows : List (List ℚ)) (i j : ℕ) :
    matrixEntry rows j i = matrixEntry rows i j := by
  unfold matrixEntry
  have hswap : pairCol j i rows = (pairCol i j rows).map Prod.swap := by
    simp only [pairCol, List.map_map]
    rfl
  rw [hswap, pearson_map_swap]

theorem pearson_eq_none_of_sxx (d : List (ℚ × ℚ)) (h : sxx d = 0) :
    pearson d = none := by
  unfold pearson
  rw [h, zero_mul, if_pos rfl]

/-- C9 (amended): the correlation matrix is symmetric; every defined entry
lies in `[-1, 1]` (an entry is NaN exactly when a column has zero variance
over the complete-case rows); the ranked-pair enumeration lists only pairs
`i < j`, so no self-correlation; and the per-subject view drops the subject's
own index. -/
theorem correlation_symm_bounds_noself :
    (∀ rows : List (List ℚ), ∀ i j : ℕ,
        matrixEntry rows j i = matrixEntry rows i j)
    ∧ (∀ d : List (ℚ × ℚ), ∀ r : ℝ, pearson d = some r → -1 ≤ r ∧ r ≤ 1)
    ∧ (∀ n : ℕ, ∀ p : ℕ × ℕ, p ∈ upperPairs n → p.1 < p.2)
    ∧ (∀ n k : ℕ, k ∉ subjectView n k) := by
  refine ⟨matrixEntry_symm, pearson_bounds, fun n p hp => ?_, fun n k => ?_⟩
  · unfold upperPairs at hp
    simp only [List.mem_flatMap, List.mem_map] at hp
    obtain ⟨i, hi, j, hj, rfl⟩ := hp
    have := List.mem_range'_1.mp hj
    simp only []
    omega
  · simp [subjectView, List.mem_filter]

/-- Counterexample for C9 as frozen: a gate-passing cohort (6 complete rows,
2 subjects) whose first subject is constant has a NaN matrix entry — not a
value in `[-1, 1]`. -/
theorem correlation_nan_entry :
    corrGate twoLangCols sixConstantRows = true
    ∧ matrixEntry (correlation_data twoLangCols sixConstantRows) 0 1 = none := by
  refine ⟨by decide, ?_⟩
  apply pearson_eq_none_of_sxx
  have hd : correlation_data twoLangCols sixConstantRows
      = [ [ 5, 1 ], [ 5, 2 ], [ 5, 3 ], [ 5, 4 ], [ 5, 5 ], [ 5, 6 ] ] := by
    decide
  have hp : pairCol 0 1 (correlation_data twoLangCols sixConstantRows)
      = [ (5, 1), (5, 2), (5, 3), (5, 4), (5, 5), (5, 6) ] := by
    rw [hd]
    decide
  rw [hp]
  have hm : meanFst [ ((5 : ℚ), (1 : ℚ)), (5, 2), (5, 3), (5, 4), (5, 5), (5, 6) ] = 5 := by
    norm_num [meanFst]
  norm_num [sxx, hm]

/-- Witness for C9's bounds branch: a defined entry, at perfectly correlated
data, whose value 1 the amended theorem bounds. -/
theorem correlation_defined_entry_witness :
    pearson diagonalPairs = some 1 ∧ (-1 ≤ (1 : ℝ) ∧ (1 : ℝ) ≤ 1) := by
  have hm1 : meanFst diagonalPairs = 2 := by
    norm_num [meanFst, diagonalPairs]
  have hm2 : meanSnd diagonalPairs = 2 := by
    norm_num [meanSnd, diagonalPairs]
  have hx : sxx diagonalPairs = 2 := by
    rw [sxx, hm1]
    norm_num [diagonalPairs]
  have hy : syy diagonalPairs = 2 := by
    rw [syy, hm2]
    norm_num [diagonalPairs]
  have hxy : sxy diagonalPairs = 2 := by
    rw [sxy, hm1, hm2]
    norm_num [diagonalPairs]
  have hp : pearson diagonalPairs = some 1 := by
    unfold pearson
    rw [hx, hy, hxy, if_neg (by norm_num)]
    congr 1
    push_cast
    rw [show ((2 : ℝ) * 2) = 2 ^ 2 by norm_num, Real.sqrt_sq (by norm_num)]
    norm_num
  exact ⟨hp, correlation_symm_bounds_noself.2.1 diagonalPairs 1 hp⟩

end Taalim
